import Mathlib

/-!
# A shallow embedding of the minimal-scraper engine

This file models, in Lean, the scrape execution engine of the repository:

* `app/runner.py` — the field extractor (`_extract_fields`), the two
  navigation strategies (`scrape_append_to_csv`, `scrape_search_to_csv`),
  the CSV writing they perform, and the inter-item pacing computation;
* `app/state.py` — the in-memory run registry (`new_run`, `update_run`);
* `app/main.py` — the `/run` handler (`run_job`), its validation, the
  background task `_do` and the finalization of a run record.

Browser behaviour (navigation outcomes, element waits, page contents) is
modelled by explicit environments: a record of Booleans saying which wait /
click succeeds, and a function from CSS selector to a fetched element.
Python dicts are modelled as insertion-ordered association lists with
replace-on-insert semantics; Python `None` is `Option.none`; a Python
function that may raise is modelled by a completion Boolean or an `Except`.
-/

/-- A CSV cell: `none` models Python `None` (written as an empty cell). -/
abbrev Cell := Option String

/-- A field-specification dict as the runner reads it with `sel.get(...)`
(`runner.py` lines 60-64): each key may be absent. -/
structure SelSpec where
  name : Option String
  selector : Option String
  stype : Option String
  attr : Option String
deriving Repr, DecidableEq

/-- A located DOM element, as far as extraction observes it:
`text_content()` (may be `None`), `get_attribute(a)` (may be `None`),
`inner_html()`. -/
structure Element where
  textContent : Option String
  getAttr : String → Option String
  innerHTML : String

/-- Outcome of `page.wait_for_selector(css, timeout=5000)` inside the
extractor: an element is found, or a `PlaywrightTimeout`, or any other
exception.  Both exception paths are caught by `_extract_fields`
(`runner.py` lines 83-86). -/
inductive Fetch where
  | found (el : Element)
  | timeout
  | failure

/-- Python truthiness of an optional string: `None` and `""` are falsy. -/
def truthy : Option String → Bool
  | none => false
  | some s => !(s = "")

/-- Python `str.strip()`: drop whitespace from both ends (structurally
recursive so that concrete runs evaluate inside proofs). -/
def pyStrip (s : String) : String :=
  ⟨List.reverse (List.dropWhile Char.isWhitespace
    (List.reverse (List.dropWhile Char.isWhitespace s.data)))⟩

/-- `name = sel.get("name") or "field"` (`runner.py` line 61): a missing or
empty name falls back to `"field"`. -/
def effName (s : SelSpec) : String :=
  match s.name with
  | none => "field"
  | some n => if n = "" then "field" else n

/-- One field's extraction (`runner.py` lines 61-86): dispatch on the
`type` key (default `"text"`); a falsy selector, a falsy `attr` for an
`attr`-kind spec, an unknown kind, a timeout or any other exception all
yield `null` for this field alone. -/
def extractOne (page : String → Fetch) (s : SelSpec) : Cell :=
  match s.selector with
  | none => none
  | some css =>
    if css = "" then none
    else
      match s.stype.getD "text" with
      | "text" =>
        match page css with
        | .found el => some (pyStrip (el.textContent.getD ""))
        | _ => none
      | "attr" =>
        match s.attr with
        | none => none
        | some a =>
          if a = "" then none
          else
            match page css with
            | .found el => el.getAttr a
            | _ => none
      | "html" =>
        match page css with
        | .found el => some el.innerHTML
        | _ => none
      | _ => none

/-- Python-dict insertion (`d[k] = v`): replace in place if the key is
present, else append, preserving insertion order. -/
def dinsert {α : Type} (row : List (String × α)) (k : String) (v : α) :
    List (String × α) :=
  if row.any (fun p => p.1 = k) then
    row.map (fun p => if p.1 = k then (k, v) else p)
  else row ++ [(k, v)]

/-- Python `d.get(k)` without a default, as an `Option`: the value stored
under the first (and, with `dinsert`, only) occurrence of the key. -/
def dget? {α : Type} : List (String × α) → String → Option α
  | [], _ => none
  | p :: row, k => if p.1 = k then some p.2 else dget? row k

/-- Python `k in d`. -/
def dmem {α : Type} (row : List (String × α)) (k : String) : Bool :=
  row.any (fun p => p.1 = k)

/-- The extractor loop (`runner.py` lines 59-87) threaded through an
accumulated row dict. -/
def extract_go (page : String → Fetch) (row : List (String × Cell)) :
    List SelSpec → List (String × Cell)
  | [] => row
  | s :: sels => extract_go page (dinsert row (effName s) (extractOne page s)) sels

/-- `_extract_fields(page, selectors)` (`runner.py` lines 58-87): build the
row dict field by field; every per-field failure is absorbed, so the
function always returns a dict. -/
def _extract_fields (page : String → Fetch) (sels : List SelSpec) :
    List (String × Cell) :=
  extract_go page [] sels

/-- `data.get(k)` where the stored values are already optional: a missing
key and a stored `None` both give `None`. -/
def pyGet (row : List (String × Cell)) (k : String) : Cell :=
  (dget? row k).getD none

/-- `s.get("name", f"field{i}")` used when building the header
(`runner.py` lines 112 and 193). -/
def headerName (i : Nat) (s : SelSpec) : String :=
  match s.name with
  | some n => n
  | none => "field" ++ toString i

/-- The header row written once after opening the file
(`runner.py` lines 112-113 and 193-194): `["input"]` followed by the
spec names in order. -/
def mkHeader (sels : List SelSpec) : List Cell :=
  some "input" :: (sels.enum.map (fun p => some (headerName p.1 p.2)))

/-- `s.get("name", "")`, the key used to read the extracted dict when
building a data row (`runner.py` lines 122 and 227). -/
def rowKey (s : SelSpec) : String := s.name.getD ""

/-- A data row (`runner.py` lines 122 and 227):
`[item] + [data.get(s.get("name", "")) for s in selectors]`. -/
def mkRow (page : String → Fetch) (sels : List SelSpec) (item : String) :
    List Cell :=
  some item :: sels.map (fun s => pyGet (_extract_fields page sels) (rowKey s))

/-- The `total/ok/err` counters of a run. -/
structure RunStats where
  total : Nat
  ok : Nat
  err : Nat
deriving Repr, DecidableEq

/-- Browser behaviour for one append-mode run, per item index: whether
`page.goto` + `wait_for_load_state` succeed, and what the page then
contains. -/
structure AppendEnv where
  nav : Nat → Bool
  page : Nat → String → Fetch

/-- One iteration of the append loop (`runner.py` lines 115-125): count the
item; on successful navigation extract and write one row and count `ok`;
on any exception write nothing and count `err`. -/
def appendStep (env : AppendEnv) (sels : List SelSpec)
    (acc : List (List Cell) × RunStats) (p : Nat × String) :
    List (List Cell) × RunStats :=
  if env.nav p.1 then
    (acc.1 ++ [mkRow (env.page p.1) sels p.2],
     ⟨acc.2.total + 1, acc.2.ok + 1, acc.2.err⟩)
  else
    (acc.1, ⟨acc.2.total + 1, acc.2.ok, acc.2.err + 1⟩)

/-- The append-mode item loop over the enumerated input list. -/
def append_loop (env : AppendEnv) (sels : List SelSpec)
    (input_list : List String) : List (List Cell) × RunStats :=
  input_list.enum.foldl (appendStep env sels) ([], ⟨0, 0, 0⟩)

/-- `scrape_append_to_csv` (`runner.py` lines 90-133), modelled as the CSV
file content (header row first, then the data rows the loop wrote) and the
final counters.  The output path and the browser lifecycle carry no data
relevant to the claims and are omitted. -/
def scrape_append_to_csv (env : AppendEnv) (input_list : List String)
    (sels : List SelSpec) : List (List Cell) × RunStats :=
  let r := append_loop env sels input_list
  (mkHeader sels :: r.1, r.2)

/-- Truncation toward zero of half an integer, i.e. Python
`int(d * 0.5)` for integer `d` (exact in floating point for these
magnitudes). -/
def intHalf (d : Int) : Int :=
  if 0 ≤ d then ((d.toNat / 2 : Nat) : Int) else -(((-d).toNat / 2 : Nat) : Int)

/-- `jitter = delay_ms_min + int((delay_ms_max - delay_ms_min) * 0.5)`
(`runner.py` lines 127 and 249): the sleep length is computed from the two
delay bounds alone; the code imports no randomness source. -/
def jitter (dmin dmax : Int) : Int := dmin + intHalf (dmax - dmin)

/-- The sequence of arguments passed to `_sleep_ms` over a run
(`runner.py` lines 126-128 and 248-250): one sleep per input item,
executed on the success and the failure path alike. -/
def run_delays (dmin dmax : Int) (input_list : List String) : List Int :=
  input_list.map (fun _ => jitter dmin dmax)

/-- Outcome of a single `wait_for_selector` whose `PlaywrightTimeout` is
handled separately from other exceptions (`runner.py` lines 207-212 and
239-243 catch only the timeout). -/
inductive WaitRes where
  | ok
  | timeout
  | failure
deriving Repr, DecidableEq

/-- The search config dict as `scrape_search_to_csv` reads it with
`search.get(...)` (`runner.py` lines 159-169). -/
structure SearchCfg where
  input_selector : Option String
  submit_selector : Option String
  results_selector : Option String
  detail_ready_selector : Option String
  back_to_search_selector : Option String
  disclaimer_selector : Option String
  disclaimer_click_each : Bool

/-- Browser behaviour for one search-mode item: whether each wait or click
the item may perform succeeds, and the detail page's contents at
extraction time.  One field per possibly-failing operation, in source
order. -/
structure ItemEnv where
  gotoStart : Bool
  disclaimerClick : Bool
  inputAfterDisclaimer : Bool
  inputQuick : WaitRes
  inputAfterBack : Bool
  inputInType : Bool
  submitClick : Bool
  resultsWait : Bool
  resultsClick : Bool
  detailWait : Bool
  page : String → Fetch
  backClick : Bool
  inputAfterBackClick : Bool
  inputQuickRet : WaitRes
  inputAfterSecondBack : Bool

/-- `page.wait_for_selector(sel, ...)` completion for a selector read off a
dict: a `None` or empty selector raises immediately, otherwise the
environment decides. -/
def waitSel (sel : Option String) (ok : Bool) : Bool :=
  truthy sel && ok

/-- Same, where a timeout must be told apart from other exceptions: a
`None` or empty selector raises a non-timeout error. -/
def waitSelR (sel : Option String) (r : WaitRes) : WaitRes :=
  if truthy sel then r else .failure

/-- `_safe_click` (`runner.py` lines 28-48): waits for the selector to be
visible, then clicks; a click failure falls back to a JS click that is
absorbed, so the call completes exactly when the visibility wait does. -/
def safe_click_ok (sel : Option String) (waitOk : Bool) : Bool :=
  waitSel sel waitOk

/-- `_type_and_submit` (`runner.py` lines 51-55): wait for the input, fill
and type, then `_safe_click` the submit selector — unconditionally; there
is no fallback when `submit_selector` is `None`, the click step raises. -/
def type_and_submit_ok (cfg : SearchCfg) (e : ItemEnv) : Bool :=
  waitSel cfg.input_selector e.inputInType && safe_click_ok cfg.submit_selector e.submitClick

/-- Per-item disclaimer handling (`runner.py` lines 200-204): only when a
truthy disclaimer selector is configured with `disclaimer_click_each`. -/
def disclaimer_each_ok (cfg : SearchCfg) (e : ItemEnv) : Bool :=
  if truthy cfg.disclaimer_selector && cfg.disclaimer_click_each then
    e.gotoStart && safe_click_ok cfg.disclaimer_selector e.disclaimerClick &&
      waitSel cfg.input_selector e.inputAfterDisclaimer
  else true

/-- The search-input readiness check (`runner.py` lines 206-212): a quick
3s wait; only on a `PlaywrightTimeout` try one `go_back` and re-wait with
the full timeout; any other exception propagates to the item guard. -/
def ensure_input_ok (cfg : SearchCfg) (e : ItemEnv) : Bool :=
  match waitSelR cfg.input_selector e.inputQuick with
  | .ok => true
  | .timeout => waitSel cfg.input_selector e.inputAfterBack
  | .failure => false

/-- The optional results-list click-through (`runner.py` lines 218-220). -/
def results_ok (cfg : SearchCfg) (e : ItemEnv) : Bool :=
  if truthy cfg.results_selector then
    waitSel cfg.results_selector e.resultsWait &&
      safe_click_ok cfg.results_selector e.resultsClick
  else true

/-- Steps 1-5 of one search item (`runner.py` lines 198-223): everything
that must succeed before the row is written and `ok` incremented. -/
def item_scrape_ok (cfg : SearchCfg) (e : ItemEnv) : Bool :=
  disclaimer_each_ok cfg e && ensure_input_ok cfg e && type_and_submit_ok cfg e &&
    results_ok cfg e && waitSel cfg.detail_ready_selector e.detailWait

/-- The return-to-search step (`runner.py` lines 230-243), still inside
the per-item `try`: click the back-to-search control and re-wait, or use
history navigation with a second `go_back` on a quick-check timeout. -/
def return_ok (cfg : SearchCfg) (e : ItemEnv) : Bool :=
  if truthy cfg.back_to_search_selector then
    safe_click_ok cfg.back_to_search_selector e.backClick &&
      waitSel cfg.input_selector e.inputAfterBackClick
  else
    match waitSelR cfg.input_selector e.inputQuickRet with
    | .ok => true
    | .timeout => waitSel cfg.input_selector e.inputAfterSecondBack
    | .failure => false

/-- One iteration of the search loop (`runner.py` lines 196-246).  The row
write and `ok += 1` happen before the return-to-search step, which is
still inside the same `try`: a return failure lands in the item's
`except` and increments `err` for an item already counted `ok`. -/
def searchStep (ienv : Nat → ItemEnv) (cfg : SearchCfg) (sels : List SelSpec)
    (acc : List (List Cell) × RunStats) (p : Nat × String) :
    List (List Cell) × RunStats :=
  if item_scrape_ok cfg (ienv p.1) then
    (acc.1 ++ [mkRow (ienv p.1).page sels p.2],
     ⟨acc.2.total + 1, acc.2.ok + 1,
      acc.2.err + (if return_ok cfg (ienv p.1) then 0 else 1)⟩)
  else
    (acc.1, ⟨acc.2.total + 1, acc.2.ok, acc.2.err + 1⟩)

/-- The search-mode item loop over the enumerated input list. -/
def search_loop (ienv : Nat → ItemEnv) (cfg : SearchCfg) (sels : List SelSpec)
    (input_list : List String) : List (List Cell) × RunStats :=
  input_list.enum.foldl (searchStep ienv cfg sels) ([], ⟨0, 0, 0⟩)

/-- Browser behaviour for a whole search run: whether the initial
navigation to `start_url` (`runner.py` lines 177-178, outside any
`try`) succeeds, then the per-item behaviour.  The once-per-batch
disclaimer attempt (lines 182-189) swallows its own failures and
changes no output, so it carries no data here. -/
structure SearchEnv where
  initNav : Bool
  items : Nat → ItemEnv

/-- `scrape_search_to_csv` (`runner.py` lines 136-255): if the initial
navigation fails the whole call raises (no file has been opened yet);
otherwise the header is written and the loop runs to completion. -/
def scrape_search_to_csv (env : SearchEnv) (cfg : SearchCfg)
    (input_list : List String) (sels : List SelSpec) :
    Except Unit (List (List Cell) × RunStats) :=
  if env.initNav then
    let r := search_loop env.items cfg sels input_list
    .ok (mkHeader sels :: r.1, r.2)
  else .error ()

/-- One record of the in-memory run registry (`state.py` lines 8-17). -/
structure RunRecord where
  status : String
  finished_at : Option String
  stats : RunStats
  error : Option String
  output_path : Option String
deriving Repr, DecidableEq

/-- The `RUNS` dict (`state.py` line 5). -/
abbrev Registry := List (String × RunRecord)

/-- `new_run` (`state.py` lines 7-17): install a fresh record with status
`"queued"` and zero counters. -/
def new_run (reg : Registry) (run_id : String) : Registry :=
  dinsert reg run_id ⟨"queued", none, ⟨0, 0, 0⟩, none, none⟩

/-- Apply an update to the record stored under a run id
(`RUNS[run_id].update(fields)`, `state.py` lines 19-20). -/
def regModify (reg : Registry) (run_id : String) (f : RunRecord → RunRecord) :
    Registry :=
  reg.map (fun p => if p.1 = run_id then (run_id, f p.2) else p)

/-- `update_run(run_id, status=s)` (`main.py` line 156). -/
def update_run_status (reg : Registry) (run_id : String) (s : String) :
    Registry :=
  regModify reg run_id (fun r => ⟨s, r.finished_at, r.stats, r.error, r.output_path⟩)

/-- `update_run(run_id, status="done", finished_at=…, stats=…,
output_path=…)` (`main.py` lines 193-199). -/
def finishDone (reg : Registry) (run_id ts : String) (st : RunStats)
    (path : String) : Registry :=
  regModify reg run_id (fun r => ⟨"done", some ts, st, r.error, some path⟩)

/-- `update_run(run_id, status="error", finished_at=…, error=…)`
(`main.py` line 213). -/
def finishError (reg : Registry) (run_id ts msg : String) : Registry :=
  regModify reg run_id (fun r => ⟨"error", some ts, r.stats, some msg, r.output_path⟩)

/-- The status stored under a run id, as the `/runs/{run_id}` endpoint
reports it. -/
def statusOf (reg : Registry) (run_id : String) : Option String :=
  (dget? reg run_id).map (fun r => r.status)

/-- A submitted `Selector` (`main.py` lines 72-76): `name` and `selector`
are required strings, `type` is restricted to `"text"` or `"attr"`, and
`attr` is optional with no further constraint. -/
structure SelectorReq where
  name : String
  selector : String
  stype : String
  attr : Option String
deriving Repr, DecidableEq

/-- What pydantic validates about one `Selector`: only the `Literal`
constraint on `type`; no check ties `attr` to `type == "attr"`. -/
def validSelector (s : SelectorReq) : Bool :=
  s.stype = "text" || s.stype = "attr"

/-- A submitted `SearchConfig` (`main.py` lines 79-84): only
`input_selector` is required. -/
structure SearchConfigReq where
  input_selector : String
  submit_selector : Option String
  results_selector : Option String
  detail_ready_selector : Option String
  back_to_search_selector : Option String
deriving Repr, DecidableEq

/-- A submitted `RunRequest` (`main.py` lines 87-105). -/
structure RunRequest where
  mode : String
  input_list : List String
  selectors : List SelectorReq
  base_url : Option String
  start_url : Option String
  search : Option SearchConfigReq
  delay_ms_min : Int
  delay_ms_max : Int
deriving Repr, DecidableEq

/-- The pydantic-level validation of a `RunRequest`: the mode `Literal`,
the two `min_items=1` bounds, and each selector's own validation. -/
def validRequest (r : RunRequest) : Bool :=
  (r.mode = "append" || r.mode = "search") && 1 ≤ r.input_list.length &&
    1 ≤ r.selectors.length && r.selectors.all validSelector

/-- The handler's own mode checks (`main.py` lines 145-152): append mode
needs a truthy `base_url`; search mode needs a truthy `start_url`, a
`search` config and a truthy `input_selector`. -/
def modeCheck (r : RunRequest) : Bool :=
  if r.mode = "append" then truthy r.base_url
  else if r.mode = "search" then
    match r.search with
    | none => false
    | some s => truthy r.start_url && !(s.input_selector = "")
  else false

/-- The body of the `/run` response (`main.py` lines 108-110). -/
structure RunResponse where
  run_id : String
  status : String
deriving Repr, DecidableEq

/-- `run_job` up to the point the response is returned (`main.py` lines
143-157 and 215-216): validate, create the record, flip it to
`"running"`, schedule the background task, answer `"running"`.  There is
no suspension point between `new_run` and `update_run`, so no other task
can observe the registry in between. -/
def run_job (reg : Registry) (r : RunRequest) (run_id : String) :
    Except Nat (Registry × RunResponse) :=
  if !(validRequest r) then .error 422
  else if !(modeCheck r) then .error 422
  else
    let reg1 := new_run reg run_id
    let reg2 := update_run_status reg1 run_id "running"
    .ok (reg2, ⟨run_id, "running"⟩)

/-- The keyword parameters `scrape_append_to_csv` accepts
(`runner.py` lines 90-98). -/
def appendRunnerParams : List String :=
  ["base_url", "input_list", "selectors", "headless",
   "delay_ms_min", "delay_ms_max", "timeout_ms"]

/-- The parameters of `scrape_append_to_csv` that have no default. -/
def appendRunnerRequired : List String :=
  ["base_url", "input_list", "selectors"]

/-- The keyword arguments `_do` passes to `scrape_append_to_csv`
(`main.py` lines 162-171) — including `run_id`. -/
def appendCallKwargs : List String :=
  ["base_url", "input_list", "selectors", "headless",
   "delay_ms_min", "delay_ms_max", "timeout_ms", "run_id"]

/-- The keyword parameters `scrape_search_to_csv` accepts
(`runner.py` lines 136-144). -/
def searchRunnerParams : List String :=
  ["start_url", "input_list", "selectors", "search", "headless",
   "delay_ms_min", "delay_ms_max", "timeout_ms"]

/-- The parameters of `scrape_search_to_csv` that have no default. -/
def searchRunnerRequired : List String :=
  ["start_url", "input_list", "selectors", "search"]

/-- The keyword arguments `_do` passes to `scrape_search_to_csv`
(`main.py` lines 174-188) — the search config exploded into individual
selector kwargs, plus `run_id`, and no `search` argument. -/
def searchCallKwargs : List String :=
  ["start_url", "input_list", "selectors", "input_selector",
   "submit_selector", "results_selector", "detail_ready_selector",
   "back_to_search_selector", "headless", "delay_ms_min", "delay_ms_max",
   "timeout_ms", "run_id"]

/-- Python keyword-call compatibility for a function without `**kwargs`:
every passed keyword must name a parameter, and every defaultless
parameter must be passed; otherwise the call raises `TypeError` before
the body runs. -/
def callOk (params required kwargs : List String) : Bool :=
  kwargs.all (fun k => params.contains k) && required.all (fun k => kwargs.contains k)

/-- Whether `_do`'s call into the selected runner is accepted by that
runner's signature. -/
def runnerInvocationOk (mode : String) : Bool :=
  if mode = "append" then callOk appendRunnerParams appendRunnerRequired appendCallKwargs
  else callOk searchRunnerParams searchRunnerRequired searchCallKwargs

/-- `Selector.dict()` as the runner then reads it: every key present. -/
def toSelSpec (s : SelectorReq) : SelSpec :=
  ⟨some s.name, some s.selector, some s.stype, s.attr⟩

/-- The search dict a well-formed call would hand the runner (the
disclaimer keys are absent from `main.py`'s `SearchConfig`). -/
def toSearchCfg (s : SearchConfigReq) : SearchCfg :=
  ⟨some s.input_selector, s.submit_selector, s.results_selector,
   s.detail_ready_selector, s.back_to_search_selector, none, false⟩

/-- Finalization of a run (`main.py` lines 190-213): a runner that raised
finalizes the record as `"error"`; a runner that returned finalizes as
`"done"` when the output file exists, else `"error"`. -/
def finalizeRun (reg : Registry) (run_id ts : String)
    (result : Except Unit (List (List Cell) × RunStats))
    (fileExists : Bool) (out_path : String) : Registry :=
  match result with
  | .ok r => if fileExists then finishDone reg run_id ts r.2 out_path
             else finishError reg run_id ts "CSV not found after run"
  | .error _ => finishError reg run_id ts "TypeError"

/-- The background task `_do` (`main.py` lines 159-213): dispatch on the
mode, call the selected runner with the kwargs of `main.py` — a call the
runner signatures reject, raising `TypeError` inside the `try` before any
scraping — and finalize the record. -/
def doTask (reg : Registry) (run_id : String) (r : RunRequest)
    (aenv : AppendEnv) (senv : SearchEnv) (ts : String)
    (fileExists : Bool) (out_path : String) : Registry :=
  if r.mode = "append" then
    if callOk appendRunnerParams appendRunnerRequired appendCallKwargs then
      finalizeRun reg run_id ts
        (.ok (scrape_append_to_csv aenv r.input_list (r.selectors.map toSelSpec)))
        fileExists out_path
    else finishError reg run_id ts "TypeError"
  else
    if callOk searchRunnerParams searchRunnerRequired searchCallKwargs then
      match r.search with
      | some s =>
        finalizeRun reg run_id ts
          (scrape_search_to_csv senv (toSearchCfg s) r.input_list
            (r.selectors.map toSelSpec))
          fileExists out_path
      | none => finishError reg run_id ts "TypeError"
    else finishError reg run_id ts "TypeError"

/-! ## Dictionary lemmas -/

theorem any_key_eq_isSome_dget? {α : Type} (row : List (String × α)) (k : String) :
    row.any (fun p => p.1 = k) = (dget? row k).isSome := by
  induction row with
  | nil => simp [dget?]
  | cons p row ih =>
    by_cases hp : p.1 = k
    · simp [dget?, hp]
    · simp [dget?, hp, ih]

theorem dget?_append_right {α : Type} (l l2 : List (String × α)) (k : String)
    (h : dget? l k = none) : dget? (l ++ l2) k = dget? l2 k := by
  induction l with
  | nil => rfl
  | cons p l ih =>
    simp only [dget?] at h ⊢
    by_cases hp : p.1 = k
    · simp [hp] at h
    · rw [if_neg hp] at h ⊢
      exact ih h

theorem dget?_map_update_self {α : Type} (l : List (String × α)) (k : String)
    (v : α) (h : (dget? l k).isSome = true) :
    dget? (l.map (fun p => if p.1 = k then (k, v) else p)) k = some v := by
  induction l with
  | nil => simp [dget?] at h
  | cons p l ih =>
    by_cases hp : p.1 = k
    · simp [dget?, hp]
    · simp only [dget?, if_neg hp] at h
      simp only [List.map_cons, if_neg hp, dget?, if_neg hp]
      exact ih h

theorem dget?_dinsert_self {α : Type} (row : List (String × α)) (k : String)
    (v : α) : dget? (dinsert row k v) k = some v := by
  unfold dinsert
  rw [any_key_eq_isSome_dget?]
  by_cases h : (dget? row k).isSome = true
  · rw [if_pos h]
    exact dget?_map_update_self row k v h
  · rw [if_neg h]
    rw [dget?_append_right row _ k (Option.not_isSome_iff_eq_none.mp (by simpa using h))]
    simp [dget?]

theorem dget?_map_update_ne {α : Type} (l : List (String × α)) (k k' : String)
    (v : α) (h : k' ≠ k) :
    dget? (l.map (fun p => if p.1 = k then (k, v) else p)) k' = dget? l k' := by
  induction l with
  | nil => rfl
  | cons p l ih =>
    by_cases hp : p.1 = k
    · have hpk' : ¬p.1 = k' := by rw [hp]; exact fun hk => h hk.symm
      simp only [List.map_cons, if_pos hp, dget?]
      rw [if_neg (fun hk => h hk.symm), if_neg hpk']
      exact ih
    · simp only [List.map_cons, if_neg hp, dget?]
      by_cases hpk' : p.1 = k'
      · rw [if_pos hpk', if_pos hpk']
      · rw [if_neg hpk', if_neg hpk']
        exact ih

theorem dget?_append_single_ne {α : Type} (l : List (String × α)) (k k' : String)
    (v : α) (h : k' ≠ k) : dget? (l ++ [(k, v)]) k' = dget? l k' := by
  induction l with
  | nil =>
    simp only [List.nil_append, dget?]
    rw [if_neg (fun hk => h hk.symm)]
  | cons p l ih =>
    simp only [List.cons_append, dget?]
    by_cases hpk' : p.1 = k'
    · rw [if_pos hpk', if_pos hpk']
    · rw [if_neg hpk', if_neg hpk']
      exact ih

theorem dget?_dinsert_ne {α : Type} (row : List (String × α)) (k k' : String)
    (v : α) (h : k' ≠ k) : dget? (dinsert row k v) k' = dget? row k' := by
  unfold dinsert
  by_cases hm : row.any (fun p => p.1 = k)
  · rw [if_pos hm]
    exact dget?_map_update_ne row k k' v h
  · rw [if_neg hm]
    exact dget?_append_single_ne row k k' v h

theorem isSome_dget?_dinsert {α : Type} (row : List (String × α)) (k k' : String)
    (v : α) (h : (dget? row k').isSome = true) :
    (dget? (dinsert row k v) k').isSome = true := by
  by_cases hk : k' = k
  · subst hk
    rw [dget?_dinsert_self]
    rfl
  · rw [dget?_dinsert_ne row k k' v hk]
    exact h

/-! ## Extractor lemmas -/

theorem extract_go_isSome_mono (page : String → Fetch) :
    ∀ (sels : List SelSpec) (row : List (String × Cell)) (k : String),
      (dget? row k).isSome = true →
      (dget? (extract_go page row sels) k).isSome = true := by
  intro sels
  induction sels with
  | nil => intro row k h; exact h
  | cons s sels ih =>
    intro row k h
    exact ih _ k (isSome_dget?_dinsert row _ k _ h)

theorem extract_go_mem (page : String → Fetch) :
    ∀ (sels : List SelSpec) (row : List (String × Cell)) (s : SelSpec),
      s ∈ sels →
      (dget? (extract_go page row sels) (effName s)).isSome = true := by
  intro sels
  induction sels with
  | nil => intro row s h; cases h
  | cons t sels ih =>
    intro row s h
    rcases List.mem_cons.mp h with h | h
    · subst h
      exact extract_go_isSome_mono page sels _ _
        (by rw [dget?_dinsert_self]; rfl)
    · exact ih _ s h

theorem extract_go_not_mem (page : String → Fetch) :
    ∀ (sels : List SelSpec) (row : List (String × Cell)) (k : String),
      k ∉ sels.map effName →
      dget? (extract_go page row sels) k = dget? row k := by
  intro sels
  induction sels with
  | nil => intro row k _; rfl
  | cons t sels ih =>
    intro row k h
    simp only [List.map_cons, List.mem_cons, not_or] at h
    rw [extract_go, ih _ k h.2, dget?_dinsert_ne row _ k _ h.1]

theorem extract_go_nodup (page : String → Fetch) :
    ∀ (sels : List SelSpec) (row : List (String × Cell)) (s : SelSpec),
      (sels.map effName).Nodup → s ∈ sels →
      dget? (extract_go page row sels) (effName s) = some (extractOne page s) := by
  intro sels
  induction sels with
  | nil => intro row s _ h; cases h
  | cons t sels ih =>
    intro row s hnd hmem
    have hnd' : effName t ∉ sels.map effName ∧ (sels.map effName).Nodup := by
      rw [List.map_cons, List.nodup_cons] at hnd
      exact hnd
    rcases List.mem_cons.mp hmem with h | h
    · subst h
      rw [extract_go, extract_go_not_mem page sels _ _ hnd'.1,
        dget?_dinsert_self]
    · exact ih _ s hnd'.2 h

/-! ## Counting lemmas -/

theorem countP_split {α : Type} (p : α → Bool) (l : List α) :
    l.countP p + l.countP (fun a => !(p a)) = l.length := by
  induction l with
  | nil => rfl
  | cons a l ih =>
    simp only [List.countP_cons, List.length_cons]
    by_cases h : p a = true <;> simp [h] <;> omega

theorem countP_le_of_imp {α : Type} (p q : α → Bool) (l : List α)
    (h : ∀ a ∈ l, p a = true → q a = true) : l.countP p ≤ l.countP q := by
  induction l with
  | nil => exact Nat.le_refl 0
  | cons a l ih =>
    simp only [List.countP_cons]
    have hl := ih (fun b hb => h b (List.mem_cons_of_mem a hb))
    by_cases hp : p a = true
    · rw [if_pos hp, if_pos (h a (List.mem_cons_self a l) hp)]
      omega
    · rw [if_neg hp]
      by_cases hq : q a = true
      · rw [if_pos hq]; omega
      · rw [if_neg hq]; omega

theorem countP_congr_mem {α : Type} (p q : α → Bool) (l : List α)
    (h : ∀ a ∈ l, p a = q a) : l.countP p = l.countP q := by
  induction l with
  | nil => rfl
  | cons a l ih =>
    simp only [List.countP_cons]
    rw [h a (List.mem_cons_self a l),
      ih (fun b hb => h b (List.mem_cons_of_mem a hb))]

theorem countP_eq_length_of_all {α : Type} (p : α → Bool) (l : List α)
    (h : ∀ a ∈ l, p a = true) : l.countP p = l.length := by
  induction l with
  | nil => rfl
  | cons a l ih =>
    simp only [List.countP_cons, List.length_cons]
    rw [if_pos (h a (List.mem_cons_self a l)),
      ih (fun b hb => h b (List.mem_cons_of_mem a hb))]

theorem countP_enum_fst {α : Type} (f : Nat → Bool) (l : List α) :
    l.enum.countP (fun p => f p.1) = (List.range l.length).countP f := by
  rw [← List.enum_map_fst l, List.countP_map]
  rfl

theorem range_countP_ne (n j : Nat) (h : j < n) :
    (List.range n).countP (fun i => !(decide (i = j))) = n - 1 := by
  induction n with
  | zero => cases h
  | succ n ih =>
    rw [List.range_succ, List.countP_append]
    by_cases hj : j = n
    · subst hj
      rw [countP_eq_length_of_all _ _ (fun a ha => by
        have := List.mem_range.mp ha
        simp [Nat.ne_of_lt this])]
      simp [List.length_range]
    · have hjn : j < n := Nat.lt_of_le_of_ne (Nat.lt_succ_iff.mp h) hj
      rw [ih hjn]
      have hne : ¬n = j := fun hh => hj hh.symm
      have : (!(decide (n = j))) = true := by simp [hne]
      simp only [List.countP_cons, List.countP_nil, this, if_pos]
      omega

/-! ## Loop characterizations -/

theorem append_go (env : AppendEnv) (sels : List SelSpec) :
    ∀ (ps : List (Nat × String)) (rows : List (List Cell)) (st : RunStats),
      ps.foldl (appendStep env sels) (rows, st) =
        (rows ++ (ps.filter (fun p => env.nav p.1)).map
            (fun p => mkRow (env.page p.1) sels p.2),
         ⟨st.total + ps.length,
          st.ok + ps.countP (fun p => env.nav p.1),
          st.err + ps.countP (fun p => !(env.nav p.1))⟩) := by
  intro ps
  induction ps with
  | nil => intro rows st; simp
  | cons p ps ih =>
    intro rows st
    rw [List.foldl_cons]
    by_cases h : env.nav p.1 = true
    · simp only [appendStep, h, if_true]
      rw [ih]
      simp only [List.filter_cons, h, if_true, List.map_cons, List.countP_cons,
        List.length_cons, Bool.not_true, List.append_assoc, List.singleton_append,
        Prod.mk.injEq, RunStats.mk.injEq]
      refine ⟨?_, ?_, ?_, ?_⟩ <;> first | trivial | omega | (simp only [if_true]; omega)
    · rw [Bool.not_eq_true] at h
      simp only [appendStep, h, if_false, Bool.false_eq_true]
      rw [ih]
      simp only [List.filter_cons, h, List.countP_cons, List.length_cons,
        Bool.not_false, Bool.false_eq_true, if_false, Prod.mk.injEq,
        RunStats.mk.injEq]
      refine ⟨?_, ?_, ?_, ?_⟩ <;> first | trivial | omega | (simp only [if_true]; omega)

theorem search_go (ienv : Nat → ItemEnv) (cfg : SearchCfg) (sels : List SelSpec) :
    ∀ (ps : List (Nat × String)) (rows : List (List Cell)) (st : RunStats),
      ps.foldl (searchStep ienv cfg sels) (rows, st) =
        (rows ++ (ps.filter (fun p => item_scrape_ok cfg (ienv p.1))).map
            (fun p => mkRow (ienv p.1).page sels p.2),
         ⟨st.total + ps.length,
          st.ok + ps.countP (fun p => item_scrape_ok cfg (ienv p.1)),
          st.err + ps.countP (fun p =>
            !(item_scrape_ok cfg (ienv p.1) && return_ok cfg (ienv p.1)))⟩) := by
  intro ps
  induction ps with
  | nil => intro rows st; simp
  | cons p ps ih =>
    intro rows st
    rw [List.foldl_cons]
    by_cases h : item_scrape_ok cfg (ienv p.1) = true
    · simp only [searchStep, h, if_true]
      rw [ih]
      simp only [List.filter_cons, h, if_true, List.map_cons, List.countP_cons,
        List.length_cons, Bool.true_and, List.append_assoc, List.singleton_append,
        Prod.mk.injEq, RunStats.mk.injEq]
      by_cases hr : return_ok cfg (ienv p.1) = true
      · simp only [hr, Bool.not_true, if_true]
        refine ⟨?_, ?_, ?_, ?_⟩ <;> first | trivial | omega | (simp only [if_true]; omega)
      · rw [Bool.not_eq_true] at hr
        simp only [hr, Bool.not_false, Bool.false_eq_true, if_false, if_true]
        refine ⟨?_, ?_, ?_, ?_⟩ <;> first | trivial | omega | (simp only [if_true]; omega)
    · rw [Bool.not_eq_true] at h
      simp only [searchStep, h, Bool.false_eq_true, if_false, Bool.false_and,
        Bool.not_false]
      rw [ih]
      simp only [List.filter_cons, h, List.countP_cons, List.length_cons,
        Bool.false_eq_true, if_false, Bool.false_and, Bool.not_false, if_true,
        Prod.mk.injEq, RunStats.mk.injEq]
      refine ⟨?_, ?_, ?_, ?_⟩ <;> first | trivial | omega | (simp only [if_true]; omega)

theorem append_loop_eq (env : AppendEnv) (sels : List SelSpec) (l : List String) :
    append_loop env sels l =
      ((l.enum.filter (fun p => env.nav p.1)).map
          (fun p => mkRow (env.page p.1) sels p.2),
       ⟨l.length, l.enum.countP (fun p => env.nav p.1),
        l.enum.countP (fun p => !(env.nav p.1))⟩) := by
  unfold append_loop
  rw [append_go]
  simp [List.enum_length]

theorem search_loop_eq (ienv : Nat → ItemEnv) (cfg : SearchCfg)
    (sels : List SelSpec) (l : List String) :
    search_loop ienv cfg sels l =
      ((l.enum.filter (fun p => item_scrape_ok cfg (ienv p.1))).map
          (fun p => mkRow (ienv p.1).page sels p.2),
       ⟨l.length, l.enum.countP (fun p => item_scrape_ok cfg (ienv p.1)),
        l.enum.countP (fun p =>
          !(item_scrape_ok cfg (ienv p.1) && return_ok cfg (ienv p.1)))⟩) := by
  unfold search_loop
  rw [search_go]
  simp [List.enum_length]

/-! ## Registry lemmas -/

theorem dget?_regModify_self (reg : Registry) (k : String)
    (f : RunRecord → RunRecord) :
    dget? (regModify reg k f) k = (dget? reg k).map f := by
  unfold regModify
  induction reg with
  | nil => rfl
  | cons p reg ih =>
    by_cases hp : p.1 = k
    · simp [dget?, hp]
    · simp only [List.map_cons, if_neg hp, dget?, if_neg hp]
      exact ih

/-- Destructuring a successful submission: what `run_job` did. -/
theorem run_job_ok_dest (reg : Registry) (r : RunRequest) (run_id : String)
    (reg2 : Registry) (resp : RunResponse)
    (h : run_job reg r run_id = .ok (reg2, resp)) :
    validRequest r = true ∧ modeCheck r = true ∧
    reg2 = update_run_status (new_run reg run_id) run_id "running" ∧
    resp = ⟨run_id, "running"⟩ := by
  rw [run_job] at h
  by_cases h1 : validRequest r = true
  · rw [if_neg (by simp [h1])] at h
    by_cases h2 : modeCheck r = true
    · rw [if_neg (by simp [h2])] at h
      simp only [Except.ok.injEq, Prod.mk.injEq] at h
      exact ⟨h1, h2, h.1.symm, h.2.symm⟩
    · rw [if_pos (by simp [h2])] at h
      cases h
  · rw [if_pos (by simp [h1])] at h
    cases h

/-- After `run_job`, the registry holds exactly one fresh record for the
new id, already flipped to `"running"`. -/
theorem dget?_after_run_job (reg : Registry) (run_id : String) :
    dget? (update_run_status (new_run reg run_id) run_id "running") run_id =
      some ⟨"running", none, ⟨0, 0, 0⟩, none, none⟩ := by
  unfold update_run_status new_run
  rw [dget?_regModify_self, dget?_dinsert_self]
  rfl

/-- The two runner call sites in `_do` are both rejected by the runner
signatures: the append call passes the unexpected `run_id`, the search
call additionally omits the required `search` parameter. -/
theorem runner_calls_rejected :
    callOk appendRunnerParams appendRunnerRequired appendCallKwargs = false ∧
    callOk searchRunnerParams searchRunnerRequired searchCallKwargs = false := by
  constructor <;> rfl

/-- Whatever the mode, `_do` reaches its `except` clause and finalizes the
record as `"error"` with the counters untouched. -/
theorem doTask_after_run_job (reg : Registry) (r : RunRequest)
    (run_id ts out : String) (aenv : AppendEnv) (senv : SearchEnv) (fe : Bool) :
    dget? (doTask (update_run_status (new_run reg run_id) run_id "running")
        run_id r aenv senv ts fe out) run_id =
      some ⟨"error", some ts, ⟨0, 0, 0⟩, some "TypeError", none⟩ := by
  unfold doTask
  by_cases hm : r.mode = "append"
  · rw [if_pos hm, if_neg (by rw [runner_calls_rejected.1]; simp)]
    unfold finishError
    rw [dget?_regModify_self, dget?_after_run_job]
    rfl
  · rw [if_neg hm, if_neg (by rw [runner_calls_rejected.2]; simp)]
    unfold finishError
    rw [dget?_regModify_self, dget?_after_run_job]
    rfl

/-! ## Concrete fixtures for witnesses and counterexamples -/

/-- A page on which selector `"#t"` holds a text element and every other
selector times out. -/
def pageT : String → Fetch :=
  fun css => if css = "#t" then .found ⟨some " v ", fun _ => none, "<b>v</b>"⟩
             else .timeout

/-- A simple text field spec named `"price"`, matching `"#t"`. -/
def specPrice : SelSpec := ⟨some "price", some "#t", some "text", none⟩

/-- An append environment where only item 0 navigates successfully. -/
def envFirstOnly : AppendEnv := ⟨fun i => decide (i = 0), fun _ => pageT⟩

/-- An append environment where every navigation succeeds. -/
def envAllOk : AppendEnv := ⟨fun _ => true, fun _ => pageT⟩

/-- A search item environment in which every browser operation succeeds. -/
def itemEnvTrue : ItemEnv :=
  ⟨true, true, true, .ok, true, true, true, true, true, true, pageT,
   true, true, .ok, true⟩

/-- Same, but the back-to-search click fails. -/
def itemEnvBackFail : ItemEnv :=
  ⟨true, true, true, .ok, true, true, true, true, true, true, pageT,
   false, true, .ok, true⟩

/-! ## C1 -/

/-- C1, counterexample.  The claim says every valid batch yields exactly
one CSV data row per input item, succeeded or failed.  In the code the
`writer.writerow` for a data row sits on the success path only
(`runner.py` line 122 resp. 227); a failed item writes nothing.  Batch
`["a", "b"]` with item 1 failing yields 1 data row, not 2. -/
theorem c1_counterexample :
    ((scrape_append_to_csv envFirstOnly ["a", "b"] [specPrice]).1.drop 1).length = 1 ∧
    ¬((scrape_append_to_csv envFirstOnly ["a", "b"] [specPrice]).1.drop 1).length =
        (["a", "b"] : List String).length := by
  constructor
  · rfl
  · decide

/-- C1, amended: in both modes the CSV contains exactly one data row per
item whose scrape phase succeeded (so the data-row count equals the `ok`
counter), in input order; items that fail produce no row at all. -/
theorem c1_amended (aenv : AppendEnv) (ienv : Nat → ItemEnv) (cfg : SearchCfg)
    (sels : List SelSpec) (l : List String) :
    (scrape_append_to_csv aenv l sels).1.drop 1 =
      (l.enum.filter (fun p => aenv.nav p.1)).map
        (fun p => mkRow (aenv.page p.1) sels p.2) ∧
    ((scrape_append_to_csv aenv l sels).1.drop 1).length =
      (scrape_append_to_csv aenv l sels).2.ok ∧
    (search_loop ienv cfg sels l).1 =
      (l.enum.filter (fun p => item_scrape_ok cfg (ienv p.1))).map
        (fun p => mkRow (ienv p.1).page sels p.2) ∧
    ((search_loop ienv cfg sels l).1).length = (search_loop ienv cfg sels l).2.ok := by
  have ha := append_loop_eq aenv sels l
  have hs := search_loop_eq ienv cfg sels l
  unfold scrape_append_to_csv
  rw [ha, hs]
  refine ⟨by simp, ?_, by simp, ?_⟩
  · simp [List.countP_eq_length_filter]
  · simp [List.countP_eq_length_filter]

/-! ## C5 -/

/-- C5, counterexample.  The claim says the header row is the ordered
field-spec names plus fixed trailing columns for source URL, provenance
timestamp and error.  The code writes `["input"] + names`
(`runner.py` line 112): for one spec named `"price"` the header is
`["input", "price"]` — two columns, with no trailing source-URL /
timestamp / error columns (the claimed shape would have 1 + 3 = 4). -/
theorem c5_counterexample :
    (scrape_append_to_csv envAllOk ["a"] [specPrice]).1.headI =
      [some "input", some "price"] ∧
    ¬((scrape_append_to_csv envAllOk ["a"] [specPrice]).1.headI).length = 1 + 3 := by
  constructor
  · rfl
  · decide

/-- C5, amended: the header row is `["input"]` followed by the ordered
field-spec names (no trailing source-URL / timestamp / error columns); it
is written exactly once per output artifact, as the first row, before any
data row, for every batch size — in append mode unconditionally, in
search mode whenever the run produces a file at all. -/
theorem c5_amended (aenv : AppendEnv) (senv : SearchEnv) (cfg : SearchCfg)
    (sels : List SelSpec) (l : List String) :
    (scrape_append_to_csv aenv l sels).1 =
      (some "input" :: (sels.enum.map (fun p => some (headerName p.1 p.2)))) ::
        (l.enum.filter (fun p => aenv.nav p.1)).map
          (fun p => mkRow (aenv.page p.1) sels p.2) ∧
    (senv.initNav = true →
      scrape_search_to_csv senv cfg l sels =
        .ok ((some "input" :: (sels.enum.map (fun p => some (headerName p.1 p.2)))) ::
              (search_loop senv.items cfg sels l).1,
             (search_loop senv.items cfg sels l).2)) := by
  constructor
  · unfold scrape_append_to_csv
    rw [append_loop_eq]
    rfl
  · intro h
    unfold scrape_search_to_csv
    rw [if_pos h]
    rfl

/-- A search config with every navigation selector present. -/
def cfgFull : SearchCfg :=
  ⟨some "#in", some "#go", none, some "#d", none, none, false⟩

/-- A search environment whose initial navigation and every item
operation succeed. -/
def senvTrue : SearchEnv := ⟨true, fun _ => itemEnvTrue⟩

/-- C5's amended statement applied at a single-item batch, discharging
the initial-navigation hypothesis of the search conjunct. -/
theorem c5_amended_witness :
    scrape_search_to_csv senvTrue cfgFull ["a"] [specPrice] =
      .ok ((some "input" ::
              (([specPrice].enum.map (fun p => some (headerName p.1 p.2))))) ::
            (search_loop senvTrue.items cfgFull [specPrice] ["a"]).1,
           (search_loop senvTrue.items cfgFull [specPrice] ["a"]).2) :=
  (c5_amended envAllOk senvTrue cfgFull [specPrice] ["a"]).2 rfl

/-! ## C9 -/

/-- C9, counterexample.  The claim says the inter-item pacing interval is
drawn uniformly at random from `[delay_min, delay_max]` and is not a
fixed deterministic value across runs.  The code computes
`delay_ms_min + int((delay_ms_max - delay_ms_min) * 0.5)`
(`runner.py` lines 127 and 249) and imports no randomness source: with
bounds 200/500 every sleep of every run is exactly 350 ms. -/
theorem c9_counterexample :
    run_delays 200 500 ["a", "b"] = [350, 350] ∧
    run_delays 200 500 ["x", "y", "z"] = [350, 350, 350] := by
  constructor <;> rfl

/-- C9, amended: after each item (success or failure alike) the strategy
sleeps the fixed deterministic interval
`delay_min + ⌊(delay_max - delay_min) / 2⌋` — the truncated midpoint of
the two bounds — identical for every item and every run; no random draw
is involved. -/
theorem c9_amended (dmin dmax : Int) (l : List String) (d : Int)
    (h : d ∈ run_delays dmin dmax l) : d = jitter dmin dmax := by
  rcases List.mem_map.mp h with ⟨_, _, rfl⟩
  rfl

/-- C9's amended statement at concrete bounds 200/500: the delay drawn is
350. -/
theorem c9_amended_witness : (350 : Int) = jitter 200 500 :=
  c9_amended 200 500 ["a"] 350 (by decide)

/-! ## C7 -/

/-- The `Selector` model's fields for a kind=attribute spec whose
attribute name is absent. -/
def badAttrSel : SelectorReq := ⟨"a", "#x", "attr", none⟩

/-- A page on which `"#x"` is found and every attribute reads `"v"`. -/
def pageAttr : String → Fetch :=
  fun css => if css = "#x" then .found ⟨some "t", fun _ => some "v", "<i>"⟩
             else .timeout

/-- A full request carrying the attribute spec with no attribute name. -/
def reqBadAttr : RunRequest :=
  ⟨"append", ["i"], [badAttrSel], some "http://b/", none, none, 300, 900⟩

/-- C7, counterexample.  The claim says a kind=attribute spec with no
attribute name is rejected at submission and never reaches the Field
Extractor.  `main.py`'s `Selector` model carries no such validator
(`attr: Optional[str] = None`, lines 72-76): the submission is accepted,
the run is created, and the extractor does process the spec — its guard
`if not attr` (`runner.py` line 73) maps the field to `None` even though
the element exists and carries the attribute. -/
theorem c7_counterexample :
    validSelector badAttrSel = true ∧
    run_job [] reqBadAttr "r1" =
      .ok ([("r1", ⟨"running", none, ⟨0, 0, 0⟩, none, none⟩)],
           ⟨"r1", "running"⟩) ∧
    _extract_fields pageAttr [toSelSpec badAttrSel] = [("a", none)] ∧
    pageAttr "#x" matches Fetch.found _ := by
  refine ⟨rfl, rfl, rfl, ?_⟩
  simp [pageAttr]

/-- C7, amended: a field specification of kind=attribute with a missing
or empty attribute name passes submission-time validation (which checks
only the kind literal) and does reach the Field Extractor, where the
`if not attr` guard yields `null` for that field instead of an error. -/
theorem c7_amended (n css : String) (page : String → Fetch) :
    validSelector ⟨n, css, "attr", none⟩ = true ∧
    extractOne page (toSelSpec ⟨n, css, "attr", none⟩) = none ∧
    extractOne page ⟨some n, some css, some "attr", some ""⟩ = none := by
  refine ⟨rfl, ?_, ?_⟩
  · unfold extractOne toSelSpec
    by_cases h : css = "" <;> simp [h]
  · unfold extractOne
    by_cases h : css = "" <;> simp [h]

/-! ## C6 -/

/-- A search config identical to `cfgFull` but with no submit selector. -/
def cfgNoSubmit : SearchCfg :=
  ⟨some "#in", none, none, some "#d", none, none, false⟩

/-- A search environment for `cfgNoSubmit` where every wait succeeds. -/
def senvNoSubmit : SearchEnv := ⟨true, fun _ => itemEnvTrue⟩

/-- C6, counterexample.  The claim says that with no `submit_selector`
the strategy falls back to an Enter keypress and the item does not fail.
`_type_and_submit` (`runner.py` lines 51-55) unconditionally calls
`_safe_click(page, submit_selector)`; with `submit_selector = None` that
raises, so even with every other operation succeeding the single item is
counted `err` and no data row is written. -/
theorem c6_counterexample :
    scrape_search_to_csv senvNoSubmit cfgNoSubmit ["q"] [specPrice] =
      .ok ([[some "input", some "price"]], ⟨1, 0, 1⟩) := by
  rfl

/-- C6, amended: the strategy always submits by clicking the configured
submit control; when `submit_selector` is absent the click step raises
inside `_type_and_submit`, so every item of the run fails its scrape
phase, is counted in `err`, and contributes no data row. -/
theorem c6_amended (cfg : SearchCfg) (e : ItemEnv) (ienv : Nat → ItemEnv)
    (sels : List SelSpec) (l : List String)
    (h : cfg.submit_selector = none) :
    type_and_submit_ok cfg e = false ∧
    item_scrape_ok cfg e = false ∧
    (search_loop ienv cfg sels l).2 = ⟨l.length, 0, l.length⟩ ∧
    (search_loop ienv cfg sels l).1 = [] := by
  have h1 : ∀ e' : ItemEnv, type_and_submit_ok cfg e' = false := by
    intro e'
    unfold type_and_submit_ok safe_click_ok waitSel
    rw [h]
    simp [truthy]
  have h2 : ∀ e' : ItemEnv, item_scrape_ok cfg e' = false := by
    intro e'
    unfold item_scrape_ok
    rw [h1 e']
    simp
  refine ⟨h1 e, h2 e, ?_, ?_⟩
  · rw [search_loop_eq]
    have hok : l.enum.countP (fun p => item_scrape_ok cfg (ienv p.1)) = 0 := by
      rw [countP_congr_mem _ (fun _ => false) _ (fun a _ => h2 (ienv a.1))]
      simp
    have herr : l.enum.countP (fun p =>
        !(item_scrape_ok cfg (ienv p.1)) || !(return_ok cfg (ienv p.1))) =
          l.enum.length := by
      refine countP_eq_length_of_all _ _ (fun a _ => ?_)
      rw [h2 (ienv a.1)]
      simp
    simp [hok, herr, List.enum_length]
  · rw [search_loop_eq]
    have : l.enum.filter (fun p => item_scrape_ok cfg (ienv p.1)) = [] := by
      refine List.filter_eq_nil_iff.mpr (fun a _ => ?_)
      rw [h2 (ienv a.1)]
      simp
    simp [this]

/-- C6's amended statement at a concrete one-item run with every wait
succeeding and the submit selector absent. -/
theorem c6_amended_witness :
    type_and_submit_ok cfgNoSubmit itemEnvTrue = false ∧
    item_scrape_ok cfgNoSubmit itemEnvTrue = false ∧
    (search_loop (fun _ => itemEnvTrue) cfgNoSubmit [specPrice] ["q"]).2 = ⟨1, 0, 1⟩ ∧
    (search_loop (fun _ => itemEnvTrue) cfgNoSubmit [specPrice] ["q"]).1 = [] :=
  c6_amended cfgNoSubmit itemEnvTrue (fun _ => itemEnvTrue) [specPrice] ["q"] rfl

/-! ## C3 -/

/-- A search config using a back-to-search control. -/
def cfgBack : SearchCfg :=
  ⟨some "#in", some "#go", none, some "#d", some "#back", none, false⟩

/-- A search environment where scraping succeeds but the back-to-search
click fails for every item. -/
def senvBackFail : SearchEnv := ⟨true, fun _ => itemEnvBackFail⟩

/-- C3, counterexample.  The claim says no single item can increment both
`ok` and `err`.  In search mode the return-to-search step
(`runner.py` lines 230-243) runs after `ok += 1` but inside the same
per-item `try`: an item whose scrape succeeds and whose back-click fails
is counted in both, giving `total = 1` but `ok + err = 2`. -/
theorem c3_counterexample :
    scrape_search_to_csv senvBackFail cfgBack ["q"] [specPrice] =
      .ok ([[some "input", some "price"], [some "q", some "v"]], ⟨1, 1, 1⟩) ∧
    ¬((1 : Nat) = 1 + 1) := by
  constructor
  · rfl
  · decide

/-- C3, amended: in append mode `total = ok + err` always holds at
completion; in search mode an item whose scrape succeeds but whose
return-to-search step fails increments both counters, so only the bounds
`total ≤ ok + err ≤ 2 · total` hold in general. -/
theorem c3_amended (aenv : AppendEnv) (ienv : Nat → ItemEnv) (cfg : SearchCfg)
    (sels : List SelSpec) (l : List String) :
    (scrape_append_to_csv aenv l sels).2.total =
      (scrape_append_to_csv aenv l sels).2.ok +
        (scrape_append_to_csv aenv l sels).2.err ∧
    (search_loop ienv cfg sels l).2.total ≤
      (search_loop ienv cfg sels l).2.ok + (search_loop ienv cfg sels l).2.err ∧
    (search_loop ienv cfg sels l).2.ok + (search_loop ienv cfg sels l).2.err ≤
      2 * (search_loop ienv cfg sels l).2.total := by
  have hsum := countP_split (fun p => aenv.nav p.1) l.enum
  have hlen : l.enum.length = l.length := List.enum_length
  refine ⟨?_, ?_, ?_⟩
  · unfold scrape_append_to_csv
    rw [append_loop_eq]
    simp only []
    omega
  · rw [search_loop_eq]
    simp only []
    have hge : l.enum.countP (fun p => !(item_scrape_ok cfg (ienv p.1))) ≤
        l.enum.countP (fun p =>
          !(item_scrape_ok cfg (ienv p.1) && return_ok cfg (ienv p.1))) := by
      refine countP_le_of_imp _ _ _ (fun a _ ha => ?_)
      rw [Bool.not_eq_true'] at ha
      rw [ha]
      simp
    have hsum2 := countP_split (fun p => item_scrape_ok cfg (ienv p.1)) l.enum
    omega
  · rw [search_loop_eq]
    simp only []
    have h1 := List.countP_le_length
      (p := fun p : Nat × String => item_scrape_ok cfg (ienv p.1)) (l := l.enum)
    have h2 := List.countP_le_length
      (p := fun p : Nat × String =>
        !(item_scrape_ok cfg (ienv p.1) && return_ok cfg (ienv p.1))) (l := l.enum)
    omega

/-! ## C2 -/

/-- C2.  Every submission that passes validation ends with its run record
in status `"error"`, never `"done"`: the orchestrator's background task
calls the selected runner with keyword arguments the runner's signature
rejects (`run_id` for append mode; the exploded selector kwargs and no
`search` argument for search mode), so the call raises `TypeError` inside
`_do`'s `try` before any scraping, and the `except` path finalizes the
record as `"error"` with the counters still at zero. -/
theorem c2_validated_submission_always_errors (reg : Registry) (r : RunRequest)
    (run_id ts out : String) (aenv : AppendEnv) (senv : SearchEnv) (fe : Bool)
    (reg2 : Registry) (resp : RunResponse)
    (h : run_job reg r run_id = .ok (reg2, resp)) :
    runnerInvocationOk r.mode = false ∧
    dget? (doTask reg2 resp.run_id r aenv senv ts fe out) resp.run_id =
      some ⟨"error", some ts, ⟨0, 0, 0⟩, some "TypeError", none⟩ := by
  obtain ⟨hv, hm, hreg, hresp⟩ := run_job_ok_dest reg r run_id reg2 resp h
  subst hreg
  subst hresp
  constructor
  · unfold runnerInvocationOk
    by_cases hmode : r.mode = "append"
    · rw [if_pos hmode]
      exact runner_calls_rejected.1
    · rw [if_neg hmode]
      exact runner_calls_rejected.2
  · exact doTask_after_run_job reg r run_id ts out aenv senv fe

/-- A well-formed selector submission. -/
def selPrice : SelectorReq := ⟨"price", "#t", "text", none⟩

/-- A valid append-mode request. -/
def reqAppend : RunRequest :=
  ⟨"append", ["i"], [selPrice], some "http://b/", none, none, 300, 900⟩

/-- C2's statement at a concrete valid append submission. -/
theorem c2_witness :
    runnerInvocationOk "append" = false ∧
    dget? (doTask (update_run_status (new_run [] "r2") "r2" "running") "r2"
        reqAppend envAllOk senvTrue "ts" true "out") "r2" =
      some ⟨"error", some "ts", ⟨0, 0, 0⟩, some "TypeError", none⟩ :=
  c2_validated_submission_always_errors [] reqAppend "r2" "ts" "out"
    envAllOk senvTrue true _ _ rfl

/-! ## C10 -/

/-- C10.  For every accepted submission the record is flipped to
`"running"` synchronously inside `run_job` (no suspension point sits
between `new_run` and `update_run`, `main.py` lines 154-156), the
response itself says `"running"`, and the only later transition — by the
background task — is to `"error"`; so `"queued"` is never observable
through the status interface. -/
theorem c10_queued_never_observable (reg : Registry) (r : RunRequest)
    (run_id ts out : String) (aenv : AppendEnv) (senv : SearchEnv) (fe : Bool)
    (reg2 : Registry) (resp : RunResponse)
    (h : run_job reg r run_id = .ok (reg2, resp)) :
    resp.status = "running" ∧
    statusOf reg2 resp.run_id = some "running" ∧
    ¬(statusOf reg2 resp.run_id = some "queued") ∧
    statusOf (doTask reg2 resp.run_id r aenv senv ts fe out) resp.run_id =
      some "error" ∧
    ¬(statusOf (doTask reg2 resp.run_id r aenv senv ts fe out) resp.run_id =
        some "queued") := by
  obtain ⟨hv, hm, hreg, hresp⟩ := run_job_ok_dest reg r run_id reg2 resp h
  subst hreg
  subst hresp
  have h1 : statusOf (update_run_status (new_run reg run_id) run_id "running")
      run_id = some "running" := by
    unfold statusOf
    rw [dget?_after_run_job]
    rfl
  have h2 := doTask_after_run_job reg r run_id ts out aenv senv fe
  refine ⟨rfl, h1, ?_, ?_, ?_⟩
  · rw [h1]
    simp
  · unfold statusOf
    rw [h2]
    rfl
  · unfold statusOf
    rw [h2]
    simp

/-- A valid search-mode request. -/
def reqSearch : RunRequest :=
  ⟨"search", ["i"], [selPrice], none, some "http://s/",
   some ⟨"#in", some "#go", none, some "#d", none⟩, 300, 900⟩

/-- C10's statement at a concrete valid search submission. -/
theorem c10_witness :
    (⟨"r3", "running"⟩ : RunResponse).status = "running" ∧
    statusOf (update_run_status (new_run [] "r3") "r3" "running") "r3" =
      some "running" ∧
    ¬(statusOf (update_run_status (new_run [] "r3") "r3" "running") "r3" =
        some "queued") ∧
    statusOf (doTask (update_run_status (new_run [] "r3") "r3" "running") "r3"
        reqSearch envAllOk senvTrue "ts" true "out") "r3" = some "error" ∧
    ¬(statusOf (doTask (update_run_status (new_run [] "r3") "r3" "running") "r3"
        reqSearch envAllOk senvTrue "ts" true "out") "r3" = some "queued") :=
  c10_queued_never_observable [] reqSearch "r3" "ts" "out"
    envAllOk senvTrue true _ _ rfl

/-! ## C4 -/

/-- C4.  If one item's target page never becomes reachable within the
step timeout, the per-item guard absorbs the failure: the run's counters
come out `⟨n, n-1, 1⟩`, every other item still contributes its data row,
the runner returns normally, and finalization of that normal return with
the output file present marks the run `"done"`, not `"error"`. -/
theorem c4_single_timeout_still_done (env : AppendEnv) (l : List String)
    (j : Nat) (sels : List SelSpec) (reg : Registry) (run_id ts out : String)
    (hj : j < l.length)
    (hnav : ∀ i, i < l.length → env.nav i = !(decide (i = j))) :
    (scrape_append_to_csv env l sels).2 = ⟨l.length, l.length - 1, 1⟩ ∧
    ((scrape_append_to_csv env l sels).1.drop 1).length = l.length - 1 ∧
    statusOf (finalizeRun (new_run reg run_id) run_id ts
        (.ok (scrape_append_to_csv env l sels)) true out) run_id =
      some "done" := by
  have hmem : ∀ p ∈ l.enum, env.nav p.1 = !(decide (p.1 = j)) := by
    intro p hp
    have h1 : p.1 ∈ l.enum.map Prod.fst := List.mem_map_of_mem _ hp
    rw [List.enum_map_fst] at h1
    exact hnav p.1 (List.mem_range.mp h1)
  have hok : l.enum.countP (fun p => env.nav p.1) = l.length - 1 := by
    rw [countP_congr_mem _ (fun p => !(decide (p.1 = j))) _ hmem,
      countP_enum_fst (fun i => !(decide (i = j))) l]
    exact range_countP_ne l.length j hj
  have hsum := countP_split (fun p => env.nav p.1) l.enum
  have hlen : l.enum.length = l.length := List.enum_length
  have herr : l.enum.countP (fun p => !(env.nav p.1)) = 1 := by omega
  refine ⟨?_, ?_, ?_⟩
  · unfold scrape_append_to_csv
    rw [append_loop_eq]
    simp only []
    rw [hok, herr]
  · unfold scrape_append_to_csv
    rw [append_loop_eq]
    simp only [List.drop_succ_cons, List.drop_zero, List.length_map]
    rw [← List.countP_eq_length_filter, hok]
  · show statusOf (finishDone (new_run reg run_id) run_id ts
        (scrape_append_to_csv env l sels).2 out) run_id = some "done"
    unfold statusOf finishDone new_run
    rw [dget?_regModify_self, dget?_dinsert_self]
    rfl

/-- An append environment in which exactly item 1 fails to navigate. -/
def envSecondFails : AppendEnv := ⟨fun i => !(decide (i = 1)), fun _ => pageT⟩

/-- C4's statement at the spec's designed scenario: a batch of 3 where
item 2 (index 1) times out — counters `⟨3, 2, 1⟩`, two data rows, final
status `"done"`. -/
theorem c4_witness :
    (scrape_append_to_csv envSecondFails ["a", "b", "c"] [specPrice]).2 =
      ⟨3, 2, 1⟩ ∧
    ((scrape_append_to_csv envSecondFails ["a", "b", "c"] [specPrice]).1.drop 1).length = 2 ∧
    statusOf (finalizeRun (new_run [] "r4") "r4" "ts"
        (.ok (scrape_append_to_csv envSecondFails ["a", "b", "c"] [specPrice]))
        true "out") "r4" = some "done" :=
  c4_single_timeout_still_done envSecondFails ["a", "b", "c"] 1 [specPrice]
    [] "r4" "ts" "out" (by decide) (fun i _ => rfl)

/-! ## C8 -/

/-- C8.  The Field Extractor is total and field-independent: it always
returns a mapping with an entry for every specification's effective name
(every failure path inside the loop stores `null` instead of raising),
and — whenever the effective names are distinct — the value recorded for
a specification is exactly that one specification's own extraction
result, so one field's failure can only ever null that single field. -/
theorem c8_extraction_total_and_independent (page : String → Fetch)
    (sels : List SelSpec) :
    (∀ s ∈ sels,
      (dget? (_extract_fields page sels) (effName s)).isSome = true) ∧
    ((sels.map effName).Nodup →
      ∀ s ∈ sels,
        dget? (_extract_fields page sels) (effName s) =
          some (extractOne page s)) :=
  ⟨fun s hs => extract_go_mem page sels [] s hs,
   fun hnd s hs => extract_go_nodup page sels [] s hnd hs⟩

/-- A spec whose selector is never found on `pageT`. -/
def specMissing : SelSpec := ⟨some "extra", some "#miss", some "text", none⟩

/-- C8's statement at a two-spec list where the second spec's selector
times out: the first field still extracts, the second maps to `null`. -/
theorem c8_witness :
    (dget? (_extract_fields pageT [specPrice, specMissing])
      (effName specMissing)).isSome = true ∧
    dget? (_extract_fields pageT [specPrice, specMissing]) (effName specPrice) =
      some (extractOne pageT specPrice) ∧
    dget? (_extract_fields pageT [specPrice, specMissing]) (effName specMissing) =
      some (extractOne pageT specMissing) ∧
    extractOne pageT specMissing = none ∧
    extractOne pageT specPrice = some "v" :=
  ⟨(c8_extraction_total_and_independent pageT [specPrice, specMissing]).1
      specMissing (by decide),
   (c8_extraction_total_and_independent pageT [specPrice, specMissing]).2
      (by decide) specPrice (by decide),
   (c8_extraction_total_and_independent pageT [specPrice, specMissing]).2
      (by decide) specMissing (by decide),
   rfl, rfl⟩
